import Mathlib

/-!
Shallow embedding of `src/sysctl.c` from IO-Pty-HalfDuplex.

The file contains one C function, `iphd_sysctl_is_waiting(int pid)`,
which issues a `sysctl(2)` request `{CTL_KERN, KERN_PROC, KERN_PROC_PID,
pid}` into a local `struct kinfo_proc` buffer and classifies the result:
it returns `kip.ki_stat == 'S' && !strcmp(kip.ki_wmesg, "ttyin")`, and
`0` when the `sysctl` call reports an error (`err < 0`).

The kernel is external to the program, so it is modelled as an oracle of
type `SysctlRequest → SysctlResult`: the request the program constructs,
and what the kernel call leaves behind (its return value, the byte count
written back through `&kipsz`, and the contents of the `kip` buffer after
the call — on a short or zero write the unwritten part of that buffer
keeps whatever stack garbage it held, which the oracle's `buf` field also
captures, since the program reads the buffer as-is).
-/

/-- Projection of `struct kinfo_proc` to the two fields the program
reads: `ki_stat`, a one-character scheduling-state code, and `ki_wmesg`,
the null-terminated wait-channel label (`strcmp` compares the bytes up to
the terminator, i.e. string equality on the label). -/
structure KinfoProc where
  ki_stat : Char
  ki_wmesg : String
deriving DecidableEq

/-- `CTL_KERN` from `sys/sysctl.h` (FreeBSD). -/
def CTL_KERN : Int := 1

/-- `KERN_PROC` from `sys/sysctl.h` (FreeBSD). -/
def KERN_PROC : Int := 14

/-- `KERN_PROC_PID` from `sys/sysctl.h` (FreeBSD). -/
def KERN_PROC_PID : Int := 1

/-- `sizeof(struct kinfo_proc)`; 1088 bytes on FreeBSD amd64. The exact
value is platform-dependent and the program never compares the written
byte count against it — it only passes it in as the buffer capacity. -/
def kinfo_proc_size : Nat := 1088

/-- The argument tuple of a `sysctl(2)` call as the program issues it:
the management-information-base name array and its length, the capacity
of the destination buffer, whether the new-value pointer is `NULL`, and
the new-value length. -/
structure SysctlRequest where
  name : List Int
  namelen : Nat
  oldLen : Nat
  newpNull : Bool
  newlen : Nat
deriving DecidableEq

/-- What a `sysctl(2)` call leaves behind for the caller: its `int`
return value (`ret`, negative on error), the byte count written back
through the size pointer (`kipsz`), the `errno` value (which the program
never reads), and the contents of the destination buffer after the call
(`buf`; on a short write this includes residual pre-call bytes). -/
structure SysctlResult where
  ret : Int
  kipsz : Nat
  errno : Nat
  buf : KinfoProc
deriving DecidableEq

/-- Lines 14–19 of `src/sysctl.c`: the request built for a given `pid` —
name `{CTL_KERN, KERN_PROC, KERN_PROC_PID, pid}` of length 4, a
`sizeof(struct kinfo_proc)` destination buffer, a `NULL` new-value
pointer and new-value length 0. -/
def iphd_request (pid : Int) : SysctlRequest :=
  { name := [CTL_KERN, KERN_PROC, KERN_PROC_PID, pid]
    namelen := 4
    oldLen := kinfo_proc_size
    newpNull := true
    newlen := 0 }

/-- Lines 21–26 of `src/sysctl.c`: interpret what the `sysctl` call left
behind. If `err < 0`, return `0`; otherwise return the `int` value of
`kip.ki_stat == 'S' && !strcmp(kip.ki_wmesg, "ttyin")`, which is `1`
when both comparisons hold and `0` otherwise. The written byte count
(`kipsz` after the call) is not consulted. -/
def iphd_classify (r : SysctlResult) : Int :=
  if r.ret < 0 then 0
  else if r.buf.ki_stat = 'S' ∧ r.buf.ki_wmesg = "ttyin" then 1 else 0

/-- `iphd_sysctl_is_waiting` (lines 6–27 of `src/sysctl.c`): build the
request for `pid`, issue it to the kernel (the oracle `kernel`), and
classify the outcome. -/
def iphd_sysctl_is_waiting (kernel : SysctlRequest → SysctlResult) (pid : Int) : Int :=
  iphd_classify (kernel (iphd_request pid))

/-- A kernel oracle returning the same outcome for every request; used
to instantiate theorems at concrete inputs. -/
def constKernel (r : SysctlResult) : SysctlRequest → SysctlResult := fun _ => r

/-- Claim C1: when the kernel information request succeeds (non-negative
return value), the function returns 1 exactly when the snapshot's
`ki_stat` equals the sleeping code `'S'` and its `ki_wmesg` equals the
terminal-input label "ttyin"; every other combination of the two fields
yields 0. -/
theorem C1_success_iff_sleeping_ttyin (kernel : SysctlRequest → SysctlResult) (pid : Int)
    (h : 0 ≤ (kernel (iphd_request pid)).ret) :
    (iphd_sysctl_is_waiting kernel pid = 1 ↔
      ((kernel (iphd_request pid)).buf.ki_stat = 'S' ∧
       (kernel (iphd_request pid)).buf.ki_wmesg = "ttyin")) ∧
    (¬ ((kernel (iphd_request pid)).buf.ki_stat = 'S' ∧
        (kernel (iphd_request pid)).buf.ki_wmesg = "ttyin") →
      iphd_sysctl_is_waiting kernel pid = 0) := by
  unfold iphd_sysctl_is_waiting iphd_classify
  by_cases hc : (kernel (iphd_request pid)).buf.ki_stat = 'S' ∧
      (kernel (iphd_request pid)).buf.ki_wmesg = "ttyin"
  · simp [not_lt.mpr h, hc]
  · simp [not_lt.mpr h, hc]

/-- Witness for C1 at a concrete input: a kernel responding with success
and a snapshot that is sleeping on "ttyin" for pid 42. -/
theorem C1_success_iff_sleeping_ttyin_witness :
    0 ≤ ((constKernel ⟨0, 1088, 0, ⟨'S', "ttyin"⟩⟩) (iphd_request 42)).ret ∧
    ((iphd_sysctl_is_waiting (constKernel ⟨0, 1088, 0, ⟨'S', "ttyin"⟩⟩) 42 = 1 ↔
      (((constKernel ⟨0, 1088, 0, ⟨'S', "ttyin"⟩⟩) (iphd_request 42)).buf.ki_stat = 'S' ∧
       ((constKernel ⟨0, 1088, 0, ⟨'S', "ttyin"⟩⟩) (iphd_request 42)).buf.ki_wmesg = "ttyin")) ∧
     (¬ (((constKernel ⟨0, 1088, 0, ⟨'S', "ttyin"⟩⟩) (iphd_request 42)).buf.ki_stat = 'S' ∧
         ((constKernel ⟨0, 1088, 0, ⟨'S', "ttyin"⟩⟩) (iphd_request 42)).buf.ki_wmesg = "ttyin") →
       iphd_sysctl_is_waiting (constKernel ⟨0, 1088, 0, ⟨'S', "ttyin"⟩⟩) 42 = 0)) :=
  ⟨by decide, C1_success_iff_sleeping_ttyin (constKernel ⟨0, 1088, 0, ⟨'S', "ttyin"⟩⟩) 42 (by decide)⟩

/-- Claim C2: for every integer pid — zero, negative, or referring to no
live process — the function is total: it returns one of the two boolean
values 0 and 1, and a kernel error response (the non-existent-process
case) yields 0. In the embedding the function is a total Lean function,
so no crash or propagated error is possible by construction. -/
theorem C2_total_boolean (kernel : SysctlRequest → SysctlResult) (pid : Int) :
    (∃ b : Bool, iphd_sysctl_is_waiting kernel pid = if b then 1 else 0) ∧
    ((kernel (iphd_request pid)).ret < 0 → iphd_sysctl_is_waiting kernel pid = 0) := by
  unfold iphd_sysctl_is_waiting iphd_classify
  rcases lt_or_le (kernel (iphd_request pid)).ret 0 with h | h
  · exact ⟨⟨false, by simp [h]⟩, fun _ => by simp [h]⟩
  · refine ⟨?_, fun hlt => absurd hlt (not_lt.mpr h)⟩
    by_cases hc : (kernel (iphd_request pid)).buf.ki_stat = 'S' ∧
        (kernel (iphd_request pid)).buf.ki_wmesg = "ttyin"
    · exact ⟨true, by simp [not_lt.mpr h, hc]⟩
    · exact ⟨false, by simp [not_lt.mpr h, hc]⟩

/-- Witness for C2 at a concrete input: pid -5 with a kernel reporting
an error (a pid that names no process), instantiating the theorem. -/
theorem C2_total_boolean_witness :
    (∃ b : Bool, iphd_sysctl_is_waiting (constKernel ⟨-1, 0, 3, ⟨'?', ""⟩⟩) (-5) =
      if b then 1 else 0) ∧
    (((constKernel ⟨-1, 0, 3, ⟨'?', ""⟩⟩) (iphd_request (-5))).ret < 0 →
      iphd_sysctl_is_waiting (constKernel ⟨-1, 0, 3, ⟨'?', ""⟩⟩) (-5) = 0) :=
  C2_total_boolean (constKernel ⟨-1, 0, 3, ⟨'?', ""⟩⟩) (-5)

/-- Claim C3: whenever the kernel call reports failure (negative return
value), the function returns 0, whatever the errno value and whatever
the buffer holds — all failure kinds collapse to the same result. -/
theorem C3_error_returns_zero (kernel : SysctlRequest → SysctlResult) (pid : Int)
    (h : (kernel (iphd_request pid)).ret < 0) :
    iphd_sysctl_is_waiting kernel pid = 0 := by
  unfold iphd_sysctl_is_waiting iphd_classify
  simp [h]

/-- Witness for C3 at a concrete input: an error response whose buffer
even holds a matching snapshot still yields 0 — the buffer is never
classified on the error path. -/
theorem C3_error_returns_zero_witness :
    ((constKernel ⟨-1, 1088, 1, ⟨'S', "ttyin"⟩⟩) (iphd_request 9)).ret < 0 ∧
    iphd_sysctl_is_waiting (constKernel ⟨-1, 1088, 1, ⟨'S', "ttyin"⟩⟩) 9 = 0 :=
  ⟨by decide, C3_error_returns_zero (constKernel ⟨-1, 1088, 1, ⟨'S', "ttyin"⟩⟩) 9 (by decide)⟩

/-- Counterexample to claim C4 as stated: a kernel response with return
value 0 (no error) but zero bytes written (`kipsz = 0`, shorter than the
snapshot size) whose buffer residue happens to read `'S'` / "ttyin"
makes the function return 1, not 0 — the code never consults the written
byte count before classifying the buffer. -/
theorem C4_short_result_counterexample :
    0 ≤ ((constKernel ⟨0, 0, 0, ⟨'S', "ttyin"⟩⟩) (iphd_request 7)).ret ∧
    ((constKernel ⟨0, 0, 0, ⟨'S', "ttyin"⟩⟩) (iphd_request 7)).kipsz < kinfo_proc_size ∧
    iphd_sysctl_is_waiting (constKernel ⟨0, 0, 0, ⟨'S', "ttyin"⟩⟩) 7 = 1 := by
  refine ⟨by decide, by decide, ?_⟩
  decide

/-- Claim C4 as amended: on a success return with a short or zero byte
count, the function does not detect the short result — it classifies the
post-call buffer contents exactly as it would a full snapshot, so the
result is 0 only when those (possibly residual) contents fail the
`'S'` / "ttyin" test. -/
theorem C4_short_result_still_classified (kernel : SysctlRequest → SysctlResult) (pid : Int)
    (h : 0 ≤ (kernel (iphd_request pid)).ret)
    (_hshort : (kernel (iphd_request pid)).kipsz < kinfo_proc_size) :
    iphd_sysctl_is_waiting kernel pid =
      (if (kernel (iphd_request pid)).buf.ki_stat = 'S' ∧
          (kernel (iphd_request pid)).buf.ki_wmesg = "ttyin" then 1 else 0) := by
  unfold iphd_sysctl_is_waiting iphd_classify
  simp [not_lt.mpr h]

/-- Witness for the amended C4 at a concrete input: a success response
with zero bytes written and residual buffer contents that do not match,
instantiating the theorem. -/
theorem C4_short_result_still_classified_witness :
    0 ≤ ((constKernel ⟨0, 0, 0, ⟨'R', "pipe"⟩⟩) (iphd_request 3)).ret ∧
    ((constKernel ⟨0, 0, 0, ⟨'R', "pipe"⟩⟩) (iphd_request 3)).kipsz < kinfo_proc_size ∧
    iphd_sysctl_is_waiting (constKernel ⟨0, 0, 0, ⟨'R', "pipe"⟩⟩) 3 =
      (if ((constKernel ⟨0, 0, 0, ⟨'R', "pipe"⟩⟩) (iphd_request 3)).buf.ki_stat = 'S' ∧
          ((constKernel ⟨0, 0, 0, ⟨'R', "pipe"⟩⟩) (iphd_request 3)).buf.ki_wmesg = "ttyin"
       then 1 else 0) :=
  ⟨by decide, by decide,
    C4_short_result_still_classified (constKernel ⟨0, 0, 0, ⟨'R', "pipe"⟩⟩) 3
      (by decide) (by decide)⟩

/-- Claim C5: on a successful query, a wait label that is a strict
prefix of "ttyin" (a proper initial segment of it) or a strict
superstring of "ttyin" (any longer string containing it contiguously,
with characters before, after, or both) is classified 0: the comparison
is full string equality, never a prefix or substring match. -/
theorem C5_no_partial_label_match (kernel : SysctlRequest → SysctlResult) (pid : Int)
    (h : 0 ≤ (kernel (iphd_request pid)).ret)
    (_hpre : (kernel (iphd_request pid)).buf.ki_wmesg.data.isPrefixOf
              ("ttyin" : String).data = true ∨
            List.IsInfix ("ttyin" : String).data
              (kernel (iphd_request pid)).buf.ki_wmesg.data)
    (hne : (kernel (iphd_request pid)).buf.ki_wmesg ≠ "ttyin") :
    iphd_sysctl_is_waiting kernel pid = 0 := by
  unfold iphd_sysctl_is_waiting iphd_classify
  simp [not_lt.mpr h, hne]

/-- Witness for C5 at a concrete input: a sleeping snapshot labelled
"xttyin", a strict superstring of "ttyin" with a leading character,
yields 0. -/
theorem C5_no_partial_label_match_witness :
    0 ≤ ((constKernel ⟨0, 1088, 0, ⟨'S', "xttyin"⟩⟩) (iphd_request 11)).ret ∧
    (((constKernel ⟨0, 1088, 0, ⟨'S', "xttyin"⟩⟩) (iphd_request 11)).buf.ki_wmesg.data.isPrefixOf
        ("ttyin" : String).data = true ∨
      List.IsInfix ("ttyin" : String).data
        ((constKernel ⟨0, 1088, 0, ⟨'S', "xttyin"⟩⟩) (iphd_request 11)).buf.ki_wmesg.data) ∧
    ((constKernel ⟨0, 1088, 0, ⟨'S', "xttyin"⟩⟩) (iphd_request 11)).buf.ki_wmesg ≠ "ttyin" ∧
    iphd_sysctl_is_waiting (constKernel ⟨0, 1088, 0, ⟨'S', "xttyin"⟩⟩) 11 = 0 :=
  ⟨by decide, by decide, by decide,
    C5_no_partial_label_match (constKernel ⟨0, 1088, 0, ⟨'S', "xttyin"⟩⟩) 11
      (by decide) (by decide) (by decide)⟩

/-- Claim C6: on a successful query, a snapshot whose `ki_stat` is not
the sleeping code `'S'` is classified 0 regardless of its wait label,
even when the label equals "ttyin". -/
theorem C6_wrong_state_returns_zero (kernel : SysctlRequest → SysctlResult) (pid : Int)
    (h : 0 ≤ (kernel (iphd_request pid)).ret)
    (hst : (kernel (iphd_request pid)).buf.ki_stat ≠ 'S') :
    iphd_sysctl_is_waiting kernel pid = 0 := by
  unfold iphd_sysctl_is_waiting iphd_classify
  simp [not_lt.mpr h, hst]

/-- Witness for C6 at a concrete input: a running process (`'R'`) whose
stale wait label still reads "ttyin" yields 0. -/
theorem C6_wrong_state_returns_zero_witness :
    0 ≤ ((constKernel ⟨0, 1088, 0, ⟨'R', "ttyin"⟩⟩) (iphd_request 12)).ret ∧
    ((constKernel ⟨0, 1088, 0, ⟨'R', "ttyin"⟩⟩) (iphd_request 12)).buf.ki_stat ≠ 'S' ∧
    iphd_sysctl_is_waiting (constKernel ⟨0, 1088, 0, ⟨'R', "ttyin"⟩⟩) 12 = 0 :=
  ⟨by decide, by decide,
    C6_wrong_state_returns_zero (constKernel ⟨0, 1088, 0, ⟨'R', "ttyin"⟩⟩) 12
      (by decide) (by decide)⟩

/-- Claim C7: the function keeps no state between invocations — its
result is a function of the kernel's response to the one request it
issues, so two calls for the same pid against kernel states that answer
that request identically return the same value. -/
theorem C7_stateless_same_response (k1 k2 : SysctlRequest → SysctlResult) (pid : Int)
    (h : k1 (iphd_request pid) = k2 (iphd_request pid)) :
    iphd_sysctl_is_waiting k1 pid = iphd_sysctl_is_waiting k2 pid := by
  unfold iphd_sysctl_is_waiting
  rw [h]

/-- Witness for C7 at a concrete input: two syntactically different
kernel oracles that answer the pid-5 request identically give the same
result. -/
theorem C7_stateless_same_response_witness :
    (constKernel ⟨-1, 0, 3, ⟨'Z', ""⟩⟩) (iphd_request 5) =
      (fun r => if r.namelen = 4 then (⟨-1, 0, 3, ⟨'Z', ""⟩⟩ : SysctlResult)
                else ⟨0, 1088, 0, ⟨'S', "ttyin"⟩⟩) (iphd_request 5) ∧
    iphd_sysctl_is_waiting (constKernel ⟨-1, 0, 3, ⟨'Z', ""⟩⟩) 5 =
      iphd_sysctl_is_waiting
        (fun r => if r.namelen = 4 then (⟨-1, 0, 3, ⟨'Z', ""⟩⟩ : SysctlResult)
                  else ⟨0, 1088, 0, ⟨'S', "ttyin"⟩⟩) 5 :=
  ⟨by decide,
    C7_stateless_same_response (constKernel ⟨-1, 0, 3, ⟨'Z', ""⟩⟩)
      (fun r => if r.namelen = 4 then (⟨-1, 0, 3, ⟨'Z', ""⟩⟩ : SysctlResult)
                else ⟨0, 1088, 0, ⟨'S', "ttyin"⟩⟩) 5 (by decide)⟩

/-- Claim C8: the query is read-only — for every pid the request the
function issues carries a `NULL` new-value pointer and a zero new-value
length, and the function's value is exactly the classification of the
kernel's response to that single request, with no other interaction. -/
theorem C8_readonly_query (kernel : SysctlRequest → SysctlResult) (pid : Int) :
    (iphd_request pid).newpNull = true ∧ (iphd_request pid).newlen = 0 ∧
    iphd_sysctl_is_waiting kernel pid = iphd_classify (kernel (iphd_request pid)) :=
  ⟨rfl, rfl, rfl⟩

/-- Claim C10: although declared with C `int` return type, the function
returns exactly 0 or 1 for every pid and every kernel behaviour. -/
theorem C10_returns_zero_or_one (kernel : SysctlRequest → SysctlResult) (pid : Int) :
    iphd_sysctl_is_waiting kernel pid = 0 ∨ iphd_sysctl_is_waiting kernel pid = 1 := by
  unfold iphd_sysctl_is_waiting iphd_classify
  rcases lt_or_le (kernel (iphd_request pid)).ret 0 with h | h
  · exact Or.inl (by simp [h])
  · by_cases hc : (kernel (iphd_request pid)).buf.ki_stat = 'S' ∧
        (kernel (iphd_request pid)).buf.ki_wmesg = "ttyin"
    · exact Or.inr (by simp [not_lt.mpr h, hc])
    · exact Or.inl (by simp [not_lt.mpr h, hc])

/-- Claim C9: the classification constants are hard-coded — the function
returns 1 exactly when the call did not report an error, the snapshot's
`ki_stat` equals the single character `'S'`, and its `ki_wmesg` equals
the five-character string "ttyin". -/
theorem C9_hardcoded_constants (kernel : SysctlRequest → SysctlResult) (pid : Int) :
    iphd_sysctl_is_waiting kernel pid = 1 ↔
      (0 ≤ (kernel (iphd_request pid)).ret ∧
       (kernel (iphd_request pid)).buf.ki_stat = 'S' ∧
       (kernel (iphd_request pid)).buf.ki_wmesg = "ttyin") := by
  unfold iphd_sysctl_is_waiting iphd_classify
  rcases lt_or_le (kernel (iphd_request pid)).ret 0 with h | h
  · simp [h, not_le.mpr h]
  · by_cases hc : (kernel (iphd_request pid)).buf.ki_stat = 'S' ∧
        (kernel (iphd_request pid)).buf.ki_wmesg = "ttyin"
    · simp [not_lt.mpr h, hc, h]
    · simp [not_lt.mpr h, hc]
